import Mathlib

/-
  Verification development for the school-bloom-theme repository.

  The repository is a small CMS: a SQL schema with row-level-security (RLS)
  policies and triggers (the migration file), plus React admin manager
  components (NewsManager, StaffManager, ActivitiesManager) that perform
  CRUD through a generic query client.

  This file shallowly embeds:
  - the data model (profiles, user_roles, news, staff, activities tables);
  - the `has_role` SQL predicate and the RLS policies, via a small
    policy-list evaluator mirroring PostgreSQL permissive-policy semantics
    (a command is allowed when SOME applicable policy's predicate holds;
    a `FOR ALL ... USING (e)` policy applies `e` to every command, a
    `TO authenticated` policy applies only to authenticated callers;
    SQL `NULL = x` is never true, so `auth.uid()`-based predicates fail
    for anonymous callers);
  - the `handle_new_user` and `handle_updated_at` triggers;
  - insert/delete with PRIMARY KEY, UNIQUE(user_id, role) and foreign-key
    constraints (REFERENCES without an ON DELETE clause defaults to
    NO ACTION: a delete of a still-referenced row is rejected);
  - the manager components' form state transitions (handleEdit,
    handleCancel, the reset after a successful submit), their fetch
    ordering (`.order(col, descending)`), and their submit payloads.

  UUIDs are modelled as Nat, timestamps as Nat, SQL TEXT as String and
  nullable columns as Option.
-/

namespace SchoolBloom

/-- The `app_role` enum from the migration: `('admin', 'user')`. -/
inductive AppRole where
  | admin
  | user
deriving DecidableEq

/-- Row of `public.profiles`: id (references auth.users), email NOT NULL,
nullable full_name and avatar_url, created_at/updated_at timestamps. -/
structure Profile where
  id : Nat
  email : String
  full_name : Option String
  avatar_url : Option String
  created_at : Nat
  updated_at : Nat
deriving DecidableEq

/-- Row of `public.user_roles`: id, user_id (references profiles, NOT NULL,
ON DELETE CASCADE), role NOT NULL, created_at; UNIQUE(user_id, role). -/
structure UserRole where
  id : Nat
  user_id : Nat
  role : AppRole
  created_at : Nat
deriving DecidableEq

/-- Row of `public.news`: title/content NOT NULL, nullable image_url,
published_date, nullable created_by referencing profiles, timestamps. -/
structure News where
  id : Nat
  title : String
  content : String
  image_url : Option String
  published_date : Nat
  created_by : Option Nat
  created_at : Nat
  updated_at : Nat
deriving DecidableEq

/-- Row of `public.staff`: full_name/position NOT NULL, nullable
department/email/phone/image_url/bio, nullable created_by, timestamps. -/
structure Staff where
  id : Nat
  full_name : String
  position : String
  department : Option String
  email : Option String
  phone : Option String
  image_url : Option String
  bio : Option String
  created_by : Option Nat
  created_at : Nat
  updated_at : Nat
deriving DecidableEq

/-- Row of `public.activities`: title/description NOT NULL, activity_date
NOT NULL, nullable location/image_url, nullable created_by, timestamps. -/
structure Activity where
  id : Nat
  title : String
  description : String
  activity_date : Nat
  location : Option String
  image_url : Option String
  created_by : Option Nat
  created_at : Nat
  updated_at : Nat
deriving DecidableEq

/-- The database state: one list of rows per table of the schema. -/
structure DB where
  profiles : List Profile
  user_roles : List UserRole
  news : List News
  staff : List Staff
  activities : List Activity
deriving DecidableEq

/-- The SQL function `public.has_role(_user_id, _role)`:
`EXISTS (SELECT 1 FROM user_roles WHERE user_id = _user_id AND role = _role)`. -/
def has_role (db : DB) (uid : Nat) (r : AppRole) : Bool :=
  db.user_roles.any (fun ra => ra.user_id == uid && decide (ra.role = r))

/-- A caller context: `some uid` for an authenticated identity with
`auth.uid() = uid`, `none` for an anonymous caller (`auth.uid()` IS NULL). -/
def Caller : Type := Option Nat

/-- `public.has_role(auth.uid(), r)` as seen by a policy: SQL equality with
NULL never holds, so an anonymous caller matches no user_roles row. -/
def hasRoleAuth (db : DB) (caller : Option Nat) (r : AppRole) : Bool :=
  match caller with
  | none => false
  | some uid => has_role db uid r

/-- SQL `auth.uid() = i`: false when `auth.uid()` IS NULL. -/
def authUidEq (caller : Option Nat) (i : Nat) : Bool :=
  match caller with
  | none => false
  | some uid => uid == i

/-- The four SQL commands RLS distinguishes. -/
inductive Cmd where
  | select
  | insert
  | update
  | delete
deriving DecidableEq

/-- Whether a command mutates rows. -/
def Cmd.isWrite : Cmd → Bool
  | .select => false
  | .insert => true
  | .update => true
  | .delete => true

/-- One RLS policy over rows of type ρ: which commands it covers
(FOR SELECT / FOR ALL), whether it is restricted `TO authenticated`,
and its USING / WITH CHECK predicate (for a `FOR ALL ... USING (e)`
policy, `e` also serves as the WITH CHECK expression). -/
structure Policy (ρ : Type) where
  forSelect : Bool
  forInsert : Bool
  forUpdate : Bool
  forDelete : Bool
  toAuthenticated : Bool
  pred : DB → Option Nat → ρ → Bool

/-- Whether a policy covers a command. -/
def Policy.applies (p : Policy ρ) (c : Cmd) : Bool :=
  match c with
  | .select => p.forSelect
  | .insert => p.forInsert
  | .update => p.forUpdate
  | .delete => p.forDelete

/-- PostgreSQL permissive-policy semantics: an operation is allowed iff
some policy applies to the command, is available to the caller's database
role, and its predicate evaluates to true on the row. With no applicable
policy, RLS denies by default. -/
def rlsAllowed (ps : List (Policy ρ)) (db : DB) (caller : Option Nat)
    (c : Cmd) (row : ρ) : Bool :=
  ps.any (fun p => p.applies c && (!p.toAuthenticated || caller.isSome)
    && p.pred db caller row)

/-- Policies on `public.profiles`:
"Public profiles are viewable by everyone" (FOR SELECT USING true),
"Users can update own profile" (FOR UPDATE USING auth.uid() = id),
"Users can insert own profile" (FOR INSERT WITH CHECK auth.uid() = id).
There is no DELETE policy. -/
def profilesPolicies : List (Policy Profile) :=
  [ ⟨true, false, false, false, false, fun _ _ _ => true⟩,
    ⟨false, false, true, false, false, fun _ c p => authUidEq c p.id⟩,
    ⟨false, true, false, false, false, fun _ c p => authUidEq c p.id⟩ ]

/-- Policies on `public.user_roles`:
"User roles viewable by authenticated users" (FOR SELECT TO authenticated
USING true), "Only admins can manage user roles" (FOR ALL USING
has_role(auth.uid(), 'admin')). -/
def userRolesPolicies : List (Policy UserRole) :=
  [ ⟨true, false, false, false, true, fun _ _ _ => true⟩,
    ⟨true, true, true, true, false, fun db c _ => hasRoleAuth db c .admin⟩ ]

/-- Policies on `public.news`: "News viewable by everyone" (FOR SELECT
USING true), "Admins can manage news" (FOR ALL USING has_role admin). -/
def newsPolicies : List (Policy News) :=
  [ ⟨true, false, false, false, false, fun _ _ _ => true⟩,
    ⟨true, true, true, true, false, fun db c _ => hasRoleAuth db c .admin⟩ ]

/-- Policies on `public.staff`: "Staff viewable by everyone" (FOR SELECT
USING true), "Admins can manage staff" (FOR ALL USING has_role admin). -/
def staffPolicies : List (Policy Staff) :=
  [ ⟨true, false, false, false, false, fun _ _ _ => true⟩,
    ⟨true, true, true, true, false, fun db c _ => hasRoleAuth db c .admin⟩ ]

/-- Policies on `public.activities`: "Activities viewable by everyone"
(FOR SELECT USING true), "Admins can manage activities" (FOR ALL USING
has_role admin). -/
def activitiesPolicies : List (Policy Activity) :=
  [ ⟨true, false, false, false, false, fun _ _ _ => true⟩,
    ⟨true, true, true, true, false, fun db c _ => hasRoleAuth db c .admin⟩ ]

/-- `has_role` holds exactly when a user_roles row links the identity to
the role. -/
theorem hasRoleAuth_iff_exists (db : DB) (caller : Option Nat) (r : AppRole) :
    hasRoleAuth db caller r = true ↔
      ∃ ra ∈ db.user_roles, caller = some ra.user_id ∧ ra.role = r := by
  cases caller with
  | none =>
      simp [hasRoleAuth]
  | some uid =>
      simp only [hasRoleAuth, has_role, List.any_eq_true, Bool.and_eq_true,
        beq_iff_eq, decide_eq_true_eq, Option.some.injEq]
      constructor
      · rintro ⟨ra, hmem, h1, h2⟩
        exact ⟨ra, hmem, h1.symm, h2⟩
      · rintro ⟨ra, hmem, h1, h2⟩
        exact ⟨ra, hmem, h1.symm, h2⟩

/-- C1: every insert, update or delete on news, staff, activities or
user_roles is permitted exactly when `has_role(auth.uid(), 'admin')`
holds, i.e. when a user_roles row links the caller's identity to the
admin role; a caller without such a row is denied. -/
theorem adminOnlyWrites (db : DB) (caller : Option Nat) (c : Cmd)
    (hc : c.isWrite = true) (n : News) (s : Staff) (a : Activity)
    (ra : UserRole) :
    rlsAllowed newsPolicies db caller c n = hasRoleAuth db caller .admin ∧
    rlsAllowed staffPolicies db caller c s = hasRoleAuth db caller .admin ∧
    rlsAllowed activitiesPolicies db caller c a
      = hasRoleAuth db caller .admin ∧
    rlsAllowed userRolesPolicies db caller c ra
      = hasRoleAuth db caller .admin ∧
    (hasRoleAuth db caller .admin = true ↔
      ∃ x ∈ db.user_roles, caller = some x.user_id ∧ x.role = .admin) := by
  refine ⟨?_, ?_, ?_, ?_, hasRoleAuth_iff_exists db caller .admin⟩ <;>
    cases c <;> simp_all [rlsAllowed, newsPolicies, staffPolicies,
      activitiesPolicies, userRolesPolicies, Policy.applies, Cmd.isWrite]

/-- Witness for C1: in a database whose only role row grants identity 1
the admin role, identity 1 may insert news and identity 2 may not. -/
theorem adminOnlyWrites_witness :
    Cmd.isWrite .insert = true ∧
    rlsAllowed newsPolicies
      ⟨[], [⟨10, 1, .admin, 0⟩], [], [], []⟩ (some 1) .insert
      ⟨1, "t", "c", none, 0, none, 0, 0⟩ = true ∧
    rlsAllowed newsPolicies
      ⟨[], [⟨10, 1, .admin, 0⟩], [], [], []⟩ (some 2) .insert
      ⟨1, "t", "c", none, 0, none, 0, 0⟩ = false := by
  have h1 := adminOnlyWrites ⟨[], [⟨10, 1, .admin, 0⟩], [], [], []⟩ (some 1)
    .insert (by decide) ⟨1, "t", "c", none, 0, none, 0, 0⟩
    ⟨1, "n", "p", none, none, none, none, none, none, 0, 0⟩
    ⟨1, "t", "d", 0, none, none, none, 0, 0⟩ ⟨10, 1, .admin, 0⟩
  have h2 := adminOnlyWrites ⟨[], [⟨10, 1, .admin, 0⟩], [], [], []⟩ (some 2)
    .insert (by decide) ⟨1, "t", "c", none, 0, none, 0, 0⟩
    ⟨1, "n", "p", none, none, none, none, none, none, 0, 0⟩
    ⟨1, "t", "d", 0, none, none, none, 0, 0⟩ ⟨10, 1, .admin, 0⟩
  refine ⟨by decide, ?_, ?_⟩
  · rw [h1.1]; decide
  · rw [h2.1]; decide

/-- C3: a profile row may be inserted or updated exactly by the caller
whose identity equals the row's id, independently of any role; no delete
policy exists on profiles, so every delete is denied. -/
theorem profileOwnerOnly (db : DB) (caller : Option Nat) (p : Profile) :
    (rlsAllowed profilesPolicies db caller .insert p = true
        ↔ caller = some p.id) ∧
    (rlsAllowed profilesPolicies db caller .update p = true
        ↔ caller = some p.id) ∧
    rlsAllowed profilesPolicies db caller .delete p = false := by
  refine ⟨?_, ?_, ?_⟩ <;>
    cases caller <;>
      simp [rlsAllowed, profilesPolicies, Policy.applies, authUidEq]

/-- C7: a user_roles row is readable exactly when the caller is
authenticated, whatever the caller's roles. -/
theorem userRolesReadAuthenticated (db : DB) (caller : Option Nat)
    (ra : UserRole) :
    rlsAllowed userRolesPolicies db caller .select ra = caller.isSome := by
  cases caller with
  | none =>
      simp [rlsAllowed, userRolesPolicies, Policy.applies, hasRoleAuth]
  | some uid =>
      simp [rlsAllowed, userRolesPolicies, Policy.applies]

/-- Constraint-violation outcomes of a rejected SQL statement. -/
inductive DbError where
  | pkViolation
  | fkViolation
  | uniqueViolation
deriving DecidableEq

/-- The `handle_updated_at` trigger fired BEFORE UPDATE on profiles
(`update_profiles_updated_at`): `NEW.updated_at = NOW()`, overwriting
whatever updated_at value the client-assembled NEW row carries. -/
def handle_updated_at_profiles (new : Profile) (now : Nat) : Profile :=
  { new with updated_at := now }

/-- The `handle_updated_at` trigger fired BEFORE UPDATE on news
(`update_news_updated_at`). -/
def handle_updated_at_news (new : News) (now : Nat) : News :=
  { new with updated_at := now }

/-- The `handle_updated_at` trigger fired BEFORE UPDATE on staff
(`update_staff_updated_at`). -/
def handle_updated_at_staff (new : Staff) (now : Nat) : Staff :=
  { new with updated_at := now }

/-- The `handle_updated_at` trigger fired BEFORE UPDATE on activities
(`update_activities_updated_at`). -/
def handle_updated_at_activities (new : Activity) (now : Nat) : Activity :=
  { new with updated_at := now }

/-- C2: on any update of a profiles, news, staff or activities row the
stored updated_at equals the write's commit time `now`, whatever value the
caller supplied in the NEW row, and is strictly greater than the previous
row's updated_at whenever the clock has advanced past it (NOW() of a later
write is later than any timestamp already stored). -/
theorem updatedAtTrigger (oldP newP : Profile) (oldN newN : News)
    (oldS newS : Staff) (oldA newA : Activity) (now : Nat)
    (hp : oldP.updated_at < now) (hn : oldN.updated_at < now)
    (hs : oldS.updated_at < now) (ha : oldA.updated_at < now) :
    ((handle_updated_at_profiles newP now).updated_at = now ∧
      oldP.updated_at < (handle_updated_at_profiles newP now).updated_at) ∧
    ((handle_updated_at_news newN now).updated_at = now ∧
      oldN.updated_at < (handle_updated_at_news newN now).updated_at) ∧
    ((handle_updated_at_staff newS now).updated_at = now ∧
      oldS.updated_at < (handle_updated_at_staff newS now).updated_at) ∧
    ((handle_updated_at_activities newA now).updated_at = now ∧
      oldA.updated_at < (handle_updated_at_activities newA now).updated_at) := by
  exact ⟨⟨rfl, hp⟩, ⟨rfl, hn⟩, ⟨rfl, hs⟩, ⟨rfl, ha⟩⟩

/-- Witness for C2: a client-supplied updated_at of 999 is overwritten
with the commit time 5, strictly above the previous value 3. -/
theorem updatedAtTrigger_witness :
    (handle_updated_at_news ⟨1, "t", "c", none, 0, none, 0, 999⟩ 5).updated_at
        = 5 ∧
    (3 : Nat) < (handle_updated_at_news
        ⟨1, "t", "c", none, 0, none, 0, 999⟩ 5).updated_at := by
  have h := updatedAtTrigger ⟨1, "e", none, none, 0, 3⟩
    ⟨1, "e", none, none, 0, 999⟩ ⟨1, "t", "c", none, 0, none, 0, 3⟩
    ⟨1, "t", "c", none, 0, none, 0, 999⟩
    ⟨1, "n", "p", none, none, none, none, none, none, 0, 3⟩
    ⟨1, "n", "p", none, none, none, none, none, none, 0, 999⟩
    ⟨1, "t", "d", 0, none, none, none, 0, 3⟩
    ⟨1, "t", "d", 0, none, none, none, 0, 999⟩ 5
    (by decide) (by decide) (by decide) (by decide)
  exact h.2.1

/-- A freshly registered auth identity: its id, email, and the
`raw_user_meta_data->>'full_name'` entry (absent when `none`). -/
structure AuthUser where
  id : Nat
  email : String
  raw_full_name : Option String

/-- The `handle_new_user` trigger function, fired AFTER INSERT on
auth.users: inserts one profiles row with the identity's id and email and
`COALESCE(raw_user_meta_data->>'full_name', '')`; inserting a duplicate
profile id violates the primary key and the statement fails. -/
def handle_new_user (profiles : List Profile) (u : AuthUser) (now : Nat) :
    Except DbError (List Profile) :=
  if profiles.any (fun p => p.id == u.id) then
    Except.error DbError.pkViolation
  else
    Except.ok (profiles ++
      [⟨u.id, u.email, some (u.raw_full_name.getD ""), none, now, now⟩])

/-- Registration of a new identity: the `on_auth_user_created` trigger
runs `handle_new_user` in the registration's transaction, so a failed
profile insert fails the registration as a whole. -/
def registerUser (db : DB) (u : AuthUser) (now : Nat) : Except DbError DB :=
  match handle_new_user db.profiles u now with
  | Except.error e => Except.error e
  | Except.ok ps => Except.ok { db with profiles := ps }

/-- C4: registering a fresh identity inserts exactly one profiles row,
with id and email copied from the identity and full_name defaulting to ""
when the metadata has none; when the profile insert fails (duplicate id)
the registration fails with it. -/
theorem registrationCreatesProfile (db : DB) (u : AuthUser) (now : Nat) :
    ((db.profiles.any fun p => p.id == u.id) = false →
      registerUser db u now = Except.ok { db with profiles :=
        db.profiles ++
          [⟨u.id, u.email, some (u.raw_full_name.getD ""), none, now, now⟩] } ∧
      ∀ db2, registerUser db u now = Except.ok db2 →
        db2.profiles.filter (fun p => p.id == u.id) =
          [⟨u.id, u.email, some (u.raw_full_name.getD ""), none, now, now⟩]) ∧
    ((db.profiles.any fun p => p.id == u.id) = true →
      registerUser db u now = Except.error DbError.pkViolation) := by
  constructor
  · intro hfresh
    have hreg : registerUser db u now = Except.ok { db with profiles :=
        db.profiles ++
          [⟨u.id, u.email, some (u.raw_full_name.getD ""), none, now, now⟩] } := by
      simp [registerUser, handle_new_user, hfresh]
    refine ⟨hreg, ?_⟩
    intro db2 h2
    rw [hreg] at h2
    injection h2 with h2
    subst h2
    have hnil : db.profiles.filter (fun p => p.id == u.id) = [] := by
      rw [List.filter_eq_nil_iff]
      intro a ha hcontra
      have : db.profiles.any (fun p => p.id == u.id) = true :=
        List.any_eq_true.mpr ⟨a, ha, hcontra⟩
      rw [hfresh] at this
      exact Bool.noConfusion this
    simp [List.filter_append, hnil]
  · intro hdup
    simp [registerUser, handle_new_user, hdup]

/-- Witness for C4: registering identity 7 with email "a@x.com" and
metadata full_name "A" into an empty database yields exactly one profile
⟨7, "a@x.com", "A"⟩; re-registering the same id fails. -/
theorem registrationCreatesProfile_witness :
    registerUser ⟨[], [], [], [], []⟩ ⟨7, "a@x.com", some "A"⟩ 4 =
      Except.ok ⟨[⟨7, "a@x.com", some "A", none, 4, 4⟩], [], [], [], []⟩ ∧
    registerUser ⟨[⟨7, "a@x.com", some "A", none, 4, 4⟩], [], [], [], []⟩
        ⟨7, "a@x.com", some "A"⟩ 9 = Except.error DbError.pkViolation := by
  have h1 := (registrationCreatesProfile ⟨[], [], [], [], []⟩
    ⟨7, "a@x.com", some "A"⟩ 4).1 (by decide)
  have h2 := (registrationCreatesProfile
    ⟨[⟨7, "a@x.com", some "A", none, 4, 4⟩], [], [], [], []⟩
    ⟨7, "a@x.com", some "A"⟩ 9).2 (by decide)
  exact ⟨h1.1, h2⟩

/-- INSERT INTO user_roles: the statement is rejected on a duplicate
primary key id, on a user_id that matches no profiles row (the NOT NULL
REFERENCES profiles(id) foreign key), or on a duplicate (user_id, role)
pair (the UNIQUE(user_id, role) constraint); otherwise the row is
appended. -/
def insertUserRole (db : DB) (ra : UserRole) : Except DbError DB :=
  if db.user_roles.any (fun x => x.id == ra.id) then
    Except.error DbError.pkViolation
  else if !db.profiles.any (fun p => p.id == ra.user_id) then
    Except.error DbError.fkViolation
  else if db.user_roles.any
      (fun x => x.user_id == ra.user_id && decide (x.role = ra.role)) then
    Except.error DbError.uniqueViolation
  else
    Except.ok { db with user_roles := db.user_roles ++ [ra] }

/-- The UNIQUE(user_id, role) invariant: no two user_roles rows share
both user_id and role. -/
def rolePairsUnique (db : DB) : Prop :=
  db.user_roles.Pairwise (fun a b => ¬(a.user_id = b.user_id ∧ a.role = b.role))

/-- C5: (user_id, role) pairs stay unique across inserts — a successful
insert preserves the invariant; an insert whose (user_id, role) pair is
already present is rejected with a uniqueness violation (given a fresh
primary key and an existing profile), while an insert of a different role
for the same profile passes the uniqueness check and succeeds. -/
theorem roleAssignmentUnique (db : DB) (ra : UserRole)
    (hu : rolePairsUnique db) :
    (∀ db2, insertUserRole db ra = Except.ok db2 → rolePairsUnique db2) ∧
    ((db.user_roles.any fun x => x.id == ra.id) = false →
      (db.profiles.any fun p => p.id == ra.user_id) = true →
      (db.user_roles.any fun x =>
          x.user_id == ra.user_id && decide (x.role = ra.role)) = true →
      insertUserRole db ra = Except.error DbError.uniqueViolation) ∧
    ((db.user_roles.any fun x => x.id == ra.id) = false →
      (db.profiles.any fun p => p.id == ra.user_id) = true →
      (db.user_roles.any fun x =>
          x.user_id == ra.user_id && decide (x.role = ra.role)) = false →
      insertUserRole db ra =
        Except.ok { db with user_roles := db.user_roles ++ [ra] }) := by
  refine ⟨?_, ?_, ?_⟩
  · intro db2 hok
    unfold insertUserRole at hok
    split at hok
    · exact absurd hok (by simp)
    · split at hok
      · exact absurd hok (by simp)
      · split at hok
        · exact absurd hok (by simp)
        · rename_i hpk hfk hpair
          injection hok with hok
          subst hok
          show List.Pairwise _ _
          rw [List.pairwise_append]
          refine ⟨hu, List.pairwise_singleton _ _, ?_⟩
          intro a ha b hb
          simp only [List.mem_singleton] at hb
          subst hb
          rintro ⟨h1, h2⟩
          exact hpair (List.any_eq_true.mpr ⟨a, ha, by simp [h1, h2]⟩)
  · intro hpk hfk hpair
    simp [insertUserRole, hpk, hfk, hpair]
  · intro hpk hfk hpair
    simp [insertUserRole, hpk, hfk, hpair]

/-- Witness for C5, the end-to-end scenario: with profile 1 present and an
admin row ⟨10, 1, admin⟩ already inserted, a second ⟨11, 1, admin⟩ is
rejected with a uniqueness violation and ⟨12, 1, user⟩ succeeds. -/
theorem roleAssignmentUnique_witness :
    insertUserRole
      ⟨[⟨1, "a@x.com", none, none, 0, 0⟩], [⟨10, 1, AppRole.admin, 0⟩],
        [], [], []⟩ ⟨11, 1, AppRole.admin, 1⟩
      = Except.error DbError.uniqueViolation ∧
    insertUserRole
      ⟨[⟨1, "a@x.com", none, none, 0, 0⟩], [⟨10, 1, AppRole.admin, 0⟩],
        [], [], []⟩ ⟨12, 1, AppRole.user, 1⟩
      = Except.ok ⟨[⟨1, "a@x.com", none, none, 0, 0⟩],
          [⟨10, 1, AppRole.admin, 0⟩, ⟨12, 1, AppRole.user, 1⟩],
          [], [], []⟩ := by
  have hinv : rolePairsUnique
      ⟨[⟨1, "a@x.com", none, none, 0, 0⟩], [⟨10, 1, AppRole.admin, 0⟩],
        [], [], []⟩ := by
    show List.Pairwise _ _
    exact List.pairwise_singleton _ _
  have h1 := (roleAssignmentUnique
    ⟨[⟨1, "a@x.com", none, none, 0, 0⟩], [⟨10, 1, AppRole.admin, 0⟩],
      [], [], []⟩ ⟨11, 1, AppRole.admin, 1⟩ hinv).2.1
    (by decide) (by decide) (by decide)
  have h2 := (roleAssignmentUnique
    ⟨[⟨1, "a@x.com", none, none, 0, 0⟩], [⟨10, 1, AppRole.admin, 0⟩],
      [], [], []⟩ ⟨12, 1, AppRole.user, 1⟩ hinv).2.2
    (by decide) (by decide) (by decide)
  exact ⟨h1, h2⟩

/-- DELETE FROM profiles WHERE id = pid. `user_roles.user_id` carries
ON DELETE CASCADE, so the profile's role rows go with it; but
`news.created_by`, `staff.created_by` and `activities.created_by`
reference profiles(id) with no ON DELETE clause, so the default NO ACTION
applies: deleting a profile still referenced by a content row is rejected
with a foreign-key violation. -/
def deleteProfile (db : DB) (pid : Nat) : Except DbError DB :=
  if db.news.any (fun n => n.created_by == some pid)
      || db.staff.any (fun s => s.created_by == some pid)
      || db.activities.any (fun a => a.created_by == some pid) then
    Except.error DbError.fkViolation
  else
    Except.ok { db with
      profiles := db.profiles.filter (fun p => !(p.id == pid)),
      user_roles := db.user_roles.filter (fun x => !(x.user_id == pid)) }

/-- A database where profile 1 holds the admin role and authored news
row 20. -/
def c6db : DB :=
  ⟨[⟨1, "a@x.com", some "A", none, 0, 0⟩],
   [⟨10, 1, AppRole.admin, 0⟩],
   [⟨20, "t", "c", none, 0, some 1, 0, 0⟩],
   [], []⟩

/-- Counterexample to C6: deleting profile 1, which created a news row,
does not succeed with a dangling or nulled creator reference — the
creator foreign key's default NO ACTION rejects the whole delete, so the
role assignments are not cascaded either. -/
theorem profileDeleteBlocked_cex :
    deleteProfile c6db 1 = Except.error DbError.fkViolation := by
  rfl

/-- C6 as amended: deleting a profile referenced by no content row
succeeds and cascades away every user_roles row of that profile, leaving
the news table unchanged; deleting a profile still referenced by a news
row's created_by is rejected with a foreign-key violation. -/
theorem profileDeleteCascadesRoles (db : DB) (pid : Nat) :
    ((db.news.any (fun n => n.created_by == some pid)
        || db.staff.any (fun s => s.created_by == some pid)
        || db.activities.any (fun a => a.created_by == some pid)) = false →
      ∀ db2, deleteProfile db pid = Except.ok db2 →
        (db2.user_roles.any fun x => x.user_id == pid) = false ∧
        db2.news = db.news ∧
        db2.user_roles = db.user_roles.filter (fun x => !(x.user_id == pid))) ∧
    ((db.news.any fun n => n.created_by == some pid) = true →
      deleteProfile db pid = Except.error DbError.fkViolation) := by
  constructor
  · intro hfree db2 hok
    have hreg : deleteProfile db pid = Except.ok { db with
        profiles := db.profiles.filter (fun p => !(p.id == pid)),
        user_roles := db.user_roles.filter (fun x => !(x.user_id == pid)) } := by
      simp [deleteProfile, hfree]
    rw [hreg] at hok
    injection hok with hok
    subst hok
    refine ⟨?_, rfl, rfl⟩
    rw [List.any_eq_false]
    intro x hx
    have hmem := List.of_mem_filter hx
    simp only [Bool.not_eq_true'] at hmem
    simp [hmem]
  · intro href
    simp [deleteProfile, href]

/-- Witness for the amended C6: deleting profile 1 when news row 20 was
created by profile 2 succeeds, drops the role row ⟨10, 1, admin⟩, and
leaves the news list untouched. -/
theorem profileDeleteCascadesRoles_witness :
    (deleteProfile ⟨[⟨1, "a@x.com", some "A", none, 0, 0⟩],
        [⟨10, 1, AppRole.admin, 0⟩],
        [⟨20, "t", "c", none, 0, some 2, 0, 0⟩], [], []⟩ 1
      = Except.ok ⟨[], [], [⟨20, "t", "c", none, 0, some 2, 0, 0⟩], [], []⟩) ∧
    ((⟨[], [], [⟨20, "t", "c", none, 0, some 2, 0, 0⟩], [], []⟩ : DB).user_roles.any
        fun x => x.user_id == 1) = false := by
  have h := (profileDeleteCascadesRoles
    ⟨[⟨1, "a@x.com", some "A", none, 0, 0⟩], [⟨10, 1, AppRole.admin, 0⟩],
      [⟨20, "t", "c", none, 0, some 2, 0, 0⟩], [], []⟩ 1).1 (by decide)
    ⟨[], [], [⟨20, "t", "c", none, 0, some 2, 0, 0⟩], [], []⟩ (by rfl)
  exact ⟨by rfl, h.1⟩

/-- The `News` interface of NewsManager.tsx (ids and timestamps reach the
client as strings; `image_url` may be null). -/
structure NewsRec where
  id : String
  title : String
  content : String
  image_url : Option String
  published_date : String
deriving DecidableEq

/-- The `Staff` interface of StaffManager.tsx. -/
structure StaffRec where
  id : String
  full_name : String
  position : String
  department : Option String
  email : Option String
  phone : Option String
  image_url : Option String
  bio : Option String
deriving DecidableEq

/-- The `Activity` interface of ActivitiesManager.tsx. -/
structure ActivityRec where
  id : String
  title : String
  description : String
  activity_date : String
  location : Option String
  image_url : Option String
deriving DecidableEq

/-- The `formData` state of NewsManager: every field is a plain string. -/
structure NewsForm where
  title : String
  content : String
  image_url : String
deriving DecidableEq

/-- The `formData` state of StaffManager. -/
structure StaffForm where
  full_name : String
  position : String
  department : String
  email : String
  phone : String
  image_url : String
  bio : String
deriving DecidableEq

/-- The `formData` state of ActivitiesManager. -/
structure ActivityForm where
  title : String
  description : String
  activity_date : String
  location : String
  image_url : String
deriving DecidableEq

/-- The form-related component state of NewsManager: `editingId` and
`formData`. -/
structure NewsManagerState where
  editingId : Option String
  formData : NewsForm
deriving DecidableEq

/-- The form-related component state of StaffManager. -/
structure StaffManagerState where
  editingId : Option String
  formData : StaffForm
deriving DecidableEq

/-- The form-related component state of ActivitiesManager. -/
structure ActivitiesManagerState where
  editingId : Option String
  formData : ActivityForm
deriving DecidableEq

/-- Models `new Date(s).toISOString().slice(0, 16)` in ActivitiesManager's
handleEdit: for a stored timestamp in normalized UTC ISO-8601 form (as the
backend returns it), `toISOString` reproduces the string and `slice(0, 16)`
keeps its first 16 characters, the `YYYY-MM-DDTHH:MM` datetime-local
value. -/
def isoSlice16 (s : String) : String := s.take 16

/-- NewsManager handleEdit: `setEditingId(news.id)` and `setFormData` with
the record's fields, a null image_url becoming "". -/
def newsHandleEdit (_s : NewsManagerState) (n : NewsRec) : NewsManagerState :=
  ⟨some n.id, ⟨n.title, n.content, n.image_url.getD ""⟩⟩

/-- NewsManager handleCancel: clear editingId and blank every field. -/
def newsHandleCancel (_s : NewsManagerState) : NewsManagerState :=
  ⟨none, ⟨"", "", ""⟩⟩

/-- NewsManager handleSubmit after a successful insert or update:
`setFormData` to all-blank and `setEditingId(null)`. -/
def newsAfterSubmit (_s : NewsManagerState) : NewsManagerState :=
  ⟨none, ⟨"", "", ""⟩⟩

/-- StaffManager handleEdit, null optional fields becoming "". -/
def staffHandleEdit (_s : StaffManagerState) (st : StaffRec) :
    StaffManagerState :=
  ⟨some st.id, ⟨st.full_name, st.position, st.department.getD "",
    st.email.getD "", st.phone.getD "", st.image_url.getD "", st.bio.getD ""⟩⟩

/-- StaffManager handleCancel. -/
def staffHandleCancel (_s : StaffManagerState) : StaffManagerState :=
  ⟨none, ⟨"", "", "", "", "", "", ""⟩⟩

/-- StaffManager handleSubmit after a successful insert or update. -/
def staffAfterSubmit (_s : StaffManagerState) : StaffManagerState :=
  ⟨none, ⟨"", "", "", "", "", "", ""⟩⟩

/-- ActivitiesManager handleEdit: the stored date is re-rendered in
datetime-local form; null location/image_url become "". -/
def activitiesHandleEdit (_s : ActivitiesManagerState) (a : ActivityRec) :
    ActivitiesManagerState :=
  ⟨some a.id, ⟨a.title, a.description, isoSlice16 a.activity_date,
    a.location.getD "", a.image_url.getD ""⟩⟩

/-- ActivitiesManager handleCancel. -/
def activitiesHandleCancel (_s : ActivitiesManagerState) :
    ActivitiesManagerState :=
  ⟨none, ⟨"", "", "", "", ""⟩⟩

/-- ActivitiesManager handleSubmit after a successful insert or update. -/
def activitiesAfterSubmit (_s : ActivitiesManagerState) :
    ActivitiesManagerState :=
  ⟨none, ⟨"", "", "", "", ""⟩⟩

/-- C8: in each of the three panels, choosing edit fills the shared form
with the record's current values (null optional fields shown as "", the
activity date re-rendered as a datetime-local string) and records the
edited id; cancel and a successful submit both blank every field and
clear the editing state. -/
theorem formPrefillAndReset (s1 : NewsManagerState) (s2 : StaffManagerState)
    (s3 : ActivitiesManagerState) (n : NewsRec) (st : StaffRec)
    (a : ActivityRec) :
    newsHandleEdit s1 n =
      ⟨some n.id, ⟨n.title, n.content, n.image_url.getD ""⟩⟩ ∧
    newsHandleCancel s1 = ⟨none, ⟨"", "", ""⟩⟩ ∧
    newsAfterSubmit s1 = ⟨none, ⟨"", "", ""⟩⟩ ∧
    staffHandleEdit s2 st =
      ⟨some st.id, ⟨st.full_name, st.position, st.department.getD "",
        st.email.getD "", st.phone.getD "", st.image_url.getD "",
        st.bio.getD ""⟩⟩ ∧
    staffHandleCancel s2 = ⟨none, ⟨"", "", "", "", "", "", ""⟩⟩ ∧
    staffAfterSubmit s2 = ⟨none, ⟨"", "", "", "", "", "", ""⟩⟩ ∧
    activitiesHandleEdit s3 a =
      ⟨some a.id, ⟨a.title, a.description, isoSlice16 a.activity_date,
        a.location.getD "", a.image_url.getD ""⟩⟩ ∧
    activitiesHandleCancel s3 = ⟨none, ⟨"", "", "", "", ""⟩⟩ ∧
    activitiesAfterSubmit s3 = ⟨none, ⟨"", "", "", "", ""⟩⟩ := by
  exact ⟨rfl, rfl, rfl, rfl, rfl, rfl, rfl, rfl, rfl⟩

/-- The order NewsManager requests: `.order("published_date", descending)`,
newest first. -/
def newsNewestFirst (a b : News) : Prop :=
  b.published_date ≤ a.published_date

instance : DecidableRel newsNewestFirst :=
  fun a b => inferInstanceAs (Decidable (b.published_date ≤ a.published_date))

instance : IsTotal News newsNewestFirst :=
  ⟨fun a b => Nat.le_total b.published_date a.published_date⟩

instance : IsTrans News newsNewestFirst :=
  ⟨fun _ _ _ hab hbc => Nat.le_trans hbc hab⟩

/-- The order ActivitiesManager requests: `.order("activity_date",
descending)`. -/
def activitiesNewestFirst (a b : Activity) : Prop :=
  b.activity_date ≤ a.activity_date

instance : DecidableRel activitiesNewestFirst :=
  fun a b => inferInstanceAs (Decidable (b.activity_date ≤ a.activity_date))

instance : IsTotal Activity activitiesNewestFirst :=
  ⟨fun a b => Nat.le_total b.activity_date a.activity_date⟩

instance : IsTrans Activity activitiesNewestFirst :=
  ⟨fun _ _ _ hab hbc => Nat.le_trans hbc hab⟩

/-- The order StaffManager requests: `.order("created_at", descending)`. -/
def staffNewestFirst (a b : Staff) : Prop :=
  b.created_at ≤ a.created_at

instance : DecidableRel staffNewestFirst :=
  fun a b => inferInstanceAs (Decidable (b.created_at ≤ a.created_at))

instance : IsTotal Staff staffNewestFirst :=
  ⟨fun a b => Nat.le_total b.created_at a.created_at⟩

instance : IsTrans Staff staffNewestFirst :=
  ⟨fun _ _ _ hab hbc => Nat.le_trans hbc hab⟩

/-- NewsManager fetchNews: the stored rows ordered by published_date
descending. -/
def fetchNews (rows : List News) : List News :=
  rows.insertionSort newsNewestFirst

/-- ActivitiesManager fetchActivities: ordered by activity_date
descending. -/
def fetchActivities (rows : List Activity) : List Activity :=
  rows.insertionSort activitiesNewestFirst

/-- StaffManager fetchStaff: ordered by created_at descending. -/
def fetchStaff (rows : List Staff) : List Staff :=
  rows.insertionSort staffNewestFirst

/-- C9: whatever the store holds, each admin list view displays exactly
the stored rows (a permutation) with every adjacent pair ordered by the
panel's fixed key, newest first: published_date for news, activity_date
for activities, created_at for staff. -/
theorem adminListsNewestFirst (ln : List News) (la : List Activity)
    (ls : List Staff) :
    List.Sorted newsNewestFirst (fetchNews ln) ∧
    List.Chain' newsNewestFirst (fetchNews ln) ∧
    List.Perm (fetchNews ln) ln ∧
    List.Sorted activitiesNewestFirst (fetchActivities la) ∧
    List.Chain' activitiesNewestFirst (fetchActivities la) ∧
    List.Perm (fetchActivities la) la ∧
    List.Sorted staffNewestFirst (fetchStaff ls) ∧
    List.Chain' staffNewestFirst (fetchStaff ls) ∧
    List.Perm (fetchStaff ls) ls := by
  refine ⟨List.sorted_insertionSort _ _, ?_, List.perm_insertionSort _ _,
    List.sorted_insertionSort _ _, ?_, List.perm_insertionSort _ _,
    List.sorted_insertionSort _ _, ?_, List.perm_insertionSort _ _⟩
  · exact (List.sorted_insertionSort newsNewestFirst ln).chain'
  · exact (List.sorted_insertionSort activitiesNewestFirst la).chain'
  · exact (List.sorted_insertionSort staffNewestFirst ls).chain'

/-- A news row as submitted by NewsManager's handleSubmit: the form object
is sent as-is, so the nullable image_url column receives the field's
string, never NULL. -/
structure NewsPayload where
  title : String
  content : String
  image_url : Option String
deriving DecidableEq

/-- The value NewsManager submits for `formData`. -/
def newsSubmitPayload (f : NewsForm) : NewsPayload :=
  ⟨f.title, f.content, some f.image_url⟩

/-- A staff row as submitted by StaffManager's handleSubmit. -/
structure StaffPayload where
  full_name : String
  position : String
  department : Option String
  email : Option String
  phone : Option String
  image_url : Option String
  bio : Option String
deriving DecidableEq

/-- The value StaffManager submits for `formData`. -/
def staffSubmitPayload (f : StaffForm) : StaffPayload :=
  ⟨f.full_name, f.position, some f.department, some f.email, some f.phone,
    some f.image_url, some f.bio⟩

/-- An activities row as submitted by ActivitiesManager's handleSubmit. -/
structure ActivityPayload where
  title : String
  description : String
  activity_date : String
  location : Option String
  image_url : Option String
deriving DecidableEq

/-- The value ActivitiesManager submits for `formData`. -/
def activitiesSubmitPayload (f : ActivityForm) : ActivityPayload :=
  ⟨f.title, f.description, f.activity_date, some f.location, some f.image_url⟩

/-- C10: every optional column in a payload built by an admin form carries
`some` of the form field's string — never NULL — so a field left blank is
submitted as the empty string, as the all-blank initial forms show. -/
theorem blankOptionalFieldsGoAsEmptyString (fn : NewsForm) (fs : StaffForm)
    (fa : ActivityForm) :
    (newsSubmitPayload fn).image_url = some fn.image_url ∧
    (newsSubmitPayload fn).image_url.isSome = true ∧
    (staffSubmitPayload fs).department = some fs.department ∧
    (staffSubmitPayload fs).email = some fs.email ∧
    (staffSubmitPayload fs).phone = some fs.phone ∧
    (staffSubmitPayload fs).image_url = some fs.image_url ∧
    (staffSubmitPayload fs).bio = some fs.bio ∧
    (staffSubmitPayload fs).department.isSome = true ∧
    (activitiesSubmitPayload fa).location = some fa.location ∧
    (activitiesSubmitPayload fa).image_url = some fa.image_url ∧
    (activitiesSubmitPayload fa).location.isSome = true ∧
    (newsSubmitPayload ⟨"t", "c", ""⟩).image_url = some "" ∧
    (staffSubmitPayload ⟨"n", "p", "", "", "", "", ""⟩).department
      = some "" ∧
    (activitiesSubmitPayload ⟨"t", "d", "2025-01-01T00:00", "", ""⟩).location
      = some "" := by
  exact ⟨rfl, rfl, rfl, rfl, rfl, rfl, rfl, rfl, rfl, rfl, rfl, rfl, rfl, rfl⟩

end SchoolBloom
